import Mathlib

/-!
Shallow embedding of the SSD1306 I2C display driver (two variants:
`ussd1306_i2c.py`, the current one, and `ussd1306-i2c.py`, the legacy one).

Python objects are modelled by explicit state records; every method is a
function from a driver state (plus the injected bus collaborator) to a
result record holding the post-call state, the list of observable events
(bus writes and GPIO pin writes) and an optional raised error.  Python
`assert` failures are `Err.invalidArgument`, a raising `i2c.writeto` is
`Err.busTransferFailure`, and a lookup of a never-assigned attribute
(`self.rst`) is `Err.attributeError`.  Crucially, when an error is raised
mid-method, the result state keeps all mutations already performed before
the raise, exactly as a Python object would.
-/

namespace USSD1306

/-- Class-level constants of `SSD1306` (file `ussd1306_i2c.py`, lines 40-50). -/
def ADDRESSING_HORIZ : Nat := 0x00

def ADDRESSING_VERT : Nat := 0x01

def ADDRESSING_PAGE : Nat := 0x02

def POWER_UP : Nat := 0xaf

def POWER_DOWN : Nat := 0xae

def DISPLAY_BLANK : List Nat := [0xae]

def DISPLAY_ALL : List Nat := [0xa5]

def DISPLAY_NORMAL : List Nat := [0xa4, 0xa6, 0xaf]

def DISPLAY_INVERSE : List Nat := [0xa7]

def DC_CMD : Nat := 0x80

def DC_DATA : Nat := 0x40

/-- The instance attributes assigned by `SSD1306.__init__` of `ussd1306_i2c.py`
(lines 52-73).  `pwr` is the optional power-enable pin collaborator.  `rst`
models the reset-pin attribute: the constructor never assigns it, which we
represent by the field holding `none` in every state the constructor builds;
`some ()` is the counterfactual state of an object that did get the attribute. -/
structure Driver where
  width : Nat
  height : Nat
  devid : Nat
  power : Nat
  addressing : Nat
  display_mode : List Nat
  pwr : Option Unit
  rst : Option Unit
  osc_freq : Nat
  clock_div : Nat
deriving Repr, DecidableEq

/-- Errors a method can raise: a failed Python `assert` (the specification name
`InvalidArgument`), a raising bus transfer (the specification name `BusTransferFailure`),
and `AttributeError` from reading an unassigned attribute. -/
inductive Err where
  | invalidArgument : Err
  | busTransferFailure : Err
  | attributeError : Err
deriving Repr, DecidableEq

/-- Observable side effects: a `self.i2c.writeto(devid, buf)` call, and the
GPIO writes `self.pwr.value(v)` / `self.rst.value(v)`. -/
inductive Ev where
  | busWrite (devid : Nat) (buf : List Nat) : Ev
  | pwrPin (v : Nat) : Ev
  | rstPin (v : Nat) : Ev
deriving Repr, DecidableEq

/-- Result of running one method: final object state, emitted events, and
the raised error if any (mutations made before the raise are kept in `st`). -/
structure MResult where
  st : Driver
  evs : List Ev
  err : Option Err
deriving Repr, DecidableEq

/-- The injected bus collaborator: decides whether `i2c.writeto(devid, buf)`
succeeds (`true`) or raises (`false`). -/
def Bus : Type := Nat → List Nat → Bool

/-- A bus on which every transfer succeeds. -/
def goodBus : Bus := fun _ _ => true

/-- A bus on which every transfer raises. -/
def badBus : Bus := fun _ _ => false

/-- Sequencing of two method calls on the same object: if the first raised,
the second never runs (Python exception propagation); otherwise events
accumulate. -/
def MResult.next (r : MResult) (f : Driver → MResult) : MResult :=
  match r.err with
  | some _ => r
  | none =>
    let r2 := f r.st
    ⟨r2.st, r.evs ++ r2.evs, r2.err⟩

/-- `SSD1306.bitmap` (lines 258-263): prepend the control byte `dc` and hand
the buffer to `i2c.writeto(self.devid, buf)`. -/
def bitmap (bus : Bus) (st : Driver) (arr : List Nat) (dc : Nat) : MResult :=
  let buf := dc :: arr
  ⟨st, [.busWrite st.devid buf],
    if bus st.devid buf then none else some .busTransferFailure⟩

/-- The loop of `SSD1306.command` (lines 248-251): `arr2` interleaves
`DC_CMD` before every byte of `arr`. -/
def interleaveCmd : List Nat → List Nat
  | [] => []
  | b :: bs => DC_CMD :: b :: interleaveCmd bs

/-- `SSD1306.command` (lines 246-252): build `arr2`, drop its first element
(`arr2[1::]`) and send it through `bitmap` with control byte `DC_CMD`. -/
def command (bus : Bus) (st : Driver) (arr : List Nat) : MResult :=
  bitmap bus st ((interleaveCmd arr).drop 1) DC_CMD

/-- `SSD1306.data` (lines 254-256): send `arr` through `bitmap` with the
data control byte. -/
def data (bus : Bus) (st : Driver) (arr : List Nat) : MResult :=
  bitmap bus st arr DC_DATA

/-- `SSD1306.set_power` (lines 93-97): validate, cache `self.power`, then
transmit.  Note the cache update happens before the transmit. -/
def set_power (bus : Bus) (st : Driver) (power : Nat) : MResult :=
  if power = POWER_UP ∨ power = POWER_DOWN then
    command bus { st with power := power } [power]
  else ⟨st, [], some .invalidArgument⟩

/-- `SSD1306.set_vcomh_deselect_level` (lines 99-103). -/
def set_vcomh_deselect_level (bus : Bus) (st : Driver) (level : Nat) : MResult :=
  if level < 8 then
    command bus st [0xdb, level <<< 4]
  else ⟨st, [], some .invalidArgument⟩

/-- `SSD1306.set_precharge_period` (lines 105-111). -/
def set_precharge_period (bus : Bus) (st : Driver) (phase1_dclk phase2_dclk : Nat) : MResult :=
  if 0 < phase1_dclk ∧ phase1_dclk < 16 then
    if 0 < phase2_dclk ∧ phase2_dclk < 16 then
      command bus st [0xd9, (phase2_dclk <<< 4) ||| phase1_dclk]
    else ⟨st, [], some .invalidArgument⟩
  else ⟨st, [], some .invalidArgument⟩

/-- `SSD1306.set_com_pins_hw_config` (lines 113-122). -/
def set_com_pins_hw_config (bus : Bus) (st : Driver)
    (enable_alt_config enable_lr_remap : Bool) : MResult :=
  let value := 0x02
  let value := if enable_alt_config then value ||| 0x10 else value
  let value := if enable_lr_remap then value ||| 0x20 else value
  command bus st [0xda, value]

/-- `SSD1306.set_com_output_scan_dir_remap_enabled` (lines 124-127). -/
def set_com_output_scan_dir_remap_enabled (bus : Bus) (st : Driver) (status : Bool) : MResult :=
  command bus st [if status then 0xc8 else 0xc0]

/-- `SSD1306.set_segment_remap_enabled` (lines 129-132). -/
def set_segment_remap_enabled (bus : Bus) (st : Driver) (status : Bool) : MResult :=
  command bus st [if status then 0xa1 else 0xa0]

/-- `SSD1306.set_chargepump_enabled` (lines 134-137). -/
def set_chargepump_enabled (bus : Bus) (st : Driver) (status : Bool) : MResult :=
  command bus st [0x8d, if status then 0x14 else 0x10]

/-- `SSD1306._set_oscfreqclockdiv` (lines 139-142): the combined register
write built from the two cached fields. -/
def set_oscfreqclockdiv (bus : Bus) (st : Driver) : MResult :=
  command bus st [0xd5, (st.osc_freq <<< 4) ||| (st.clock_div - 1)]

/-- `SSD1306.set_osc_freq` (lines 144-149); `set` is the optional flag. -/
def set_osc_freq (bus : Bus) (st : Driver) (osc_freq : Nat) (set : Bool) : MResult :=
  if osc_freq < 16 then
    let st := { st with osc_freq := osc_freq }
    if set then set_oscfreqclockdiv bus st else ⟨st, [], none⟩
  else ⟨st, [], some .invalidArgument⟩

/-- `SSD1306.set_clock_div` (lines 151-156). -/
def set_clock_div (bus : Bus) (st : Driver) (clock_div : Nat) (set : Bool) : MResult :=
  if 0 < clock_div ∧ clock_div ≤ 16 then
    let st := { st with clock_div := clock_div }
    if set then set_oscfreqclockdiv bus st else ⟨st, [], none⟩
  else ⟨st, [], some .invalidArgument⟩

/-- `SSD1306.set_mux_ratio` (lines 158-161). -/
def set_mux_ratio (bus : Bus) (st : Driver) (mux_ratio : Nat) : MResult :=
  if 16 ≤ mux_ratio ∧ mux_ratio ≤ 64 then
    command bus st [0xa8, mux_ratio - 1]
  else ⟨st, [], some .invalidArgument⟩

/-- `SSD1306.set_disp_offset` (lines 163-166).  The source assert is
`0 <= offset < 63`, strictly below 63, although its message reads
"Offset must be between 0 and 63." -/
def set_disp_offset (bus : Bus) (st : Driver) (offset : Nat) : MResult :=
  if offset < 63 then
    command bus st [0xd3, offset]
  else ⟨st, [], some .invalidArgument⟩

/-- `SSD1306.set_disp_start_line` (lines 168-171), same `< 63` bound. -/
def set_disp_start_line (bus : Bus) (st : Driver) (start_line : Nat) : MResult :=
  if start_line < 63 then
    command bus st [0x40 ||| start_line]
  else ⟨st, [], some .invalidArgument⟩

/-- `SSD1306.set_addressing` (lines 173-177): caches then transmits. -/
def set_addressing (bus : Bus) (st : Driver) (addr : Nat) : MResult :=
  if addr = ADDRESSING_HORIZ ∨ addr = ADDRESSING_VERT ∨ addr = ADDRESSING_PAGE then
    command bus { st with addressing := addr } [0x20, addr]
  else ⟨st, [], some .invalidArgument⟩

/-- `SSD1306.set_display` (lines 179-183): caches then transmits the chosen mode
byte list. -/
def set_display (bus : Bus) (st : Driver) (display_mode : List Nat) : MResult :=
  if display_mode = DISPLAY_BLANK ∨ display_mode = DISPLAY_ALL ∨
      display_mode = DISPLAY_NORMAL ∨ display_mode = DISPLAY_INVERSE then
    command bus { st with display_mode := display_mode } display_mode
  else ⟨st, [], some .invalidArgument⟩

/-- `SSD1306.set_contrast` (lines 185-188). -/
def set_contrast (bus : Bus) (st : Driver) (value : Nat) : MResult :=
  if value ≤ 0xff then
    command bus st [0x81, value]
  else ⟨st, [], some .invalidArgument⟩

/-- `SSD1306.position` (lines 190-194). -/
def position (bus : Bus) (st : Driver) (x y : Nat) : MResult :=
  if x < st.width then
    if y < st.height / 8 then
      command bus st [0x21, x, 0x7f, 0x22, y, 0x07]
    else ⟨st, [], some .invalidArgument⟩
  else ⟨st, [], some .invalidArgument⟩

/-- `SSD1306.clear` (lines 196-200): position to (0,0), send
`height*width//8` zero data bytes, position to (0,0) again. -/
def clear (bus : Bus) (st : Driver) : MResult :=
  ((position bus st 0 0).next fun st =>
    data bus st (List.replicate (st.height * st.width / 8) 0)).next fun st =>
    position bus st 0 0

/-- `SSD1306.power_on` (lines 214-217): assert the power pin when present;
the `self.reset()` call is commented out in this variant. -/
def power_on (st : Driver) : MResult :=
  if st.pwr.isSome then ⟨st, [.pwrPin 1], none⟩ else ⟨st, [], none⟩

/-- `SSD1306.reset` (lines 219-237): the very first statement reads
`self.rst`, an attribute no constructor ever assigns, so with `rst = none`
the method raises before the reset pulse and before the cached-state
resynchronization; with the counterfactual `rst = some _` it would pulse the
pin and resynchronize the cached fields to the post-reset defaults. -/
def reset (st : Driver) : MResult :=
  match st.rst with
  | none => ⟨st, [], some .attributeError⟩
  | some _ =>
    ⟨{ st with power := POWER_DOWN, addressing := ADDRESSING_HORIZ,
               display_mode := DISPLAY_NORMAL },
      [.rstPin 0, .rstPin 1], none⟩

/-- `SSD1306.__init__` (lines 52-91): field assignments (the width/height
128×64 reference configuration, cached defaults, `osc_freq = 8`,
`clock_div = 1`; `rst` is never assigned), then the fixed initialization
call sequence. -/
def init (bus : Bus) (pwr : Option Unit) (devid : Nat) : MResult :=
  let st : Driver :=
    { width := 128, height := 64, devid := devid, power := POWER_DOWN,
      addressing := ADDRESSING_HORIZ, display_mode := DISPLAY_NORMAL,
      pwr := pwr, rst := none, osc_freq := 8, clock_div := 1 }
  ((((((((((((((((power_on st).next fun st =>
    set_power bus st POWER_DOWN).next fun st =>
    set_mux_ratio bus st st.height).next fun st =>
    set_disp_offset bus st 0).next fun st =>
    set_disp_start_line bus st 0).next fun st =>
    set_segment_remap_enabled bus st false).next fun st =>
    set_com_output_scan_dir_remap_enabled bus st false).next fun st =>
    set_com_pins_hw_config bus st true false).next fun st =>
    set_contrast bus st 255).next fun st =>
    set_osc_freq bus st 8 false).next fun st =>
    set_clock_div bus st 1 true).next fun st =>
    set_chargepump_enabled bus st true).next fun st =>
    set_addressing bus st ADDRESSING_HORIZ).next fun st =>
    set_precharge_period bus st 1 15).next fun st =>
    set_vcomh_deselect_level bus st 4).next fun st =>
    set_display bus st DISPLAY_NORMAL).next fun st =>
    clear bus st

/-- The instance attributes assigned by `SSD1306.__init__` of the legacy
variant `ussd1306-i2c.py` (lines 52-58, 70-71): no `osc_freq`/`clock_div`
fields, and again no `rst` assignment (modelled as `none`). -/
structure LDriver where
  width : Nat
  height : Nat
  devid : Nat
  power : Nat
  addressing : Nat
  display_mode : List Nat
  pwr : Option Unit
  rst : Option Unit
deriving Repr, DecidableEq

/-- Result of one legacy-variant method call. -/
structure LRes where
  st : LDriver
  evs : List Ev
  err : Option Err
deriving Repr, DecidableEq

/-- Sequencing for legacy-variant calls, as `MResult.next`. -/
def LRes.next (r : LRes) (f : LDriver → LRes) : LRes :=
  match r.err with
  | some _ => r
  | none =>
    let r2 := f r.st
    ⟨r2.st, r.evs ++ r2.evs, r2.err⟩

/-- Legacy `SSD1306.reset` (`ussd1306-i2c.py`, lines 142-160): identical body
to `reset` of the current variant, including the initial `self.rst` read of an
attribute its constructor never assigns. -/
def lreset (st : LDriver) : LRes :=
  match st.rst with
  | none => ⟨st, [], some .attributeError⟩
  | some _ =>
    ⟨{ st with power := POWER_DOWN, addressing := ADDRESSING_HORIZ,
               display_mode := DISPLAY_NORMAL },
      [.rstPin 0, .rstPin 1], none⟩

/-- Legacy `SSD1306.power_on` (`ussd1306-i2c.py`, lines 137-140): assert the
power pin when present, then call `self.reset()` (not commented out here). -/
def lpower_on (st : LDriver) : LRes :=
  (if st.pwr.isSome then (⟨st, [.pwrPin 1], none⟩ : LRes) else ⟨st, [], none⟩).next
    fun st => lreset st

/-- The record of field assignments of the legacy constructor
(`ussd1306-i2c.py` lines 52-58, 70-71), performed before `self.power_on()`,
the first method call of the constructor (line 73). -/
def lInitState (pwr : Option Unit) (devid : Nat) : LDriver :=
  { width := 128, height := 64, devid := devid, power := POWER_DOWN,
    addressing := ADDRESSING_HORIZ, display_mode := DISPLAY_NORMAL,
    pwr := pwr, rst := none }

/-- A sample driver state with non-default cached fields (width/height and
`devid` as the constructor sets them), used to exercise methods on a state
whose cached registers differ from the post-reset defaults. -/
def sampleSt : Driver :=
  { width := 128, height := 64, devid := 0x3c, power := POWER_UP,
    addressing := ADDRESSING_PAGE, display_mode := DISPLAY_INVERSE,
    pwr := some (), rst := none, osc_freq := 8, clock_div := 1 }

/-- The interleaving loop of `command` frames every command byte
individually behind `DC_CMD`. -/
theorem interleaveCmd_eq_bind (l : List Nat) :
    interleaveCmd l = l.flatMap fun c => [DC_CMD, c] := by
  induction l with
  | nil => rfl
  | cons b bs ih => simp [interleaveCmd, ih]

/-- Claim C1 (counterexample): with a bus that rejects every transfer,
calling `set_power` with `POWER_UP` from a state whose cached power is
`POWER_DOWN` raises the transfer failure, yet the cached `power` field has
already been changed away from its prior value. -/
theorem c1_cache_updated_on_failed_transfer :
    (set_power badBus { sampleSt with power := POWER_DOWN } POWER_UP).err =
      some Err.busTransferFailure ∧
    (set_power badBus { sampleSt with power := POWER_DOWN } POWER_UP).st.power ≠
      POWER_DOWN := by
  decide

/-- Claim C1 (amended): for every state and valid power argument, if the bus
rejects the framed transfer, `set_power` surfaces the failure to the caller
unretried, but the cached `power` field has already been overwritten with
the requested value: the cache update precedes the transmit. -/
theorem c1_set_power_failed_transfer (bus : Bus) (st : Driver) (p : Nat)
    (hp : p = POWER_UP ∨ p = POWER_DOWN)
    (hb : bus st.devid [DC_CMD, p] = false) :
    (set_power bus st p).err = some Err.busTransferFailure ∧
    (set_power bus st p).st.power = p ∧
    (set_power bus st p).evs = [Ev.busWrite st.devid [DC_CMD, p]] := by
  simp [set_power, command, bitmap, interleaveCmd, hp, hb]

/-- Witness for C1 at the sample state and the always-failing bus. -/
theorem c1_set_power_failed_transfer_witness :
    (set_power badBus sampleSt POWER_UP).err = some Err.busTransferFailure ∧
    (set_power badBus sampleSt POWER_UP).st.power = POWER_UP ∧
    (set_power badBus sampleSt POWER_UP).evs =
      [Ev.busWrite sampleSt.devid [DC_CMD, POWER_UP]] :=
  c1_set_power_failed_transfer badBus sampleSt POWER_UP (Or.inl rfl) rfl

/-- Claim C2 (counterexample): the construction trace does NOT end with the
1024-byte zero-fill data transfer; the final transfer is the cursor-reset
command issued by `clear` after the fill. -/
theorem c2_last_transfer_not_datafill :
    (init goodBus (some ()) 0x3c).evs.getLast? ≠
      some (Ev.busWrite 0x3c (DC_DATA :: List.replicate 1024 0)) := by
  decide

/-- Claim C2 (amended): constructing a driver for the 128×64 display against
an always-succeeding bus issues exactly the 14-step sequence, byte-for-byte
(power pin on; power down 0xAE; mux ratio 0xA8,63; offset 0xD3,0; start line
0x40; segment remap 0xA0; COM scan dir 0xC0; COM pins 0xDA,0x12; contrast
0x81,255; osc/div 0xD5,0x80; charge pump 0x8D,0x14; horizontal addressing
0x20,0x00; precharge 0xD9,0xF1; Vcomh 0xDB,0x40; display normal
0xA4,0xA6,0xAF; position; 1024-byte zero fill; final cursor-reset position),
each command byte framed behind 0x80, with the zero fill as the
second-to-last transfer followed by the cursor-reset command. -/
theorem c2_init_sequence :
    (init goodBus (some ()) 0x3c).err = none ∧
    (init goodBus (some ()) 0x3c).evs =
      [Ev.pwrPin 1,
       Ev.busWrite 0x3c [0x80, 0xae],
       Ev.busWrite 0x3c [0x80, 0xa8, 0x80, 0x3f],
       Ev.busWrite 0x3c [0x80, 0xd3, 0x80, 0x00],
       Ev.busWrite 0x3c [0x80, 0x40],
       Ev.busWrite 0x3c [0x80, 0xa0],
       Ev.busWrite 0x3c [0x80, 0xc0],
       Ev.busWrite 0x3c [0x80, 0xda, 0x80, 0x12],
       Ev.busWrite 0x3c [0x80, 0x81, 0x80, 0xff],
       Ev.busWrite 0x3c [0x80, 0xd5, 0x80, 0x80],
       Ev.busWrite 0x3c [0x80, 0x8d, 0x80, 0x14],
       Ev.busWrite 0x3c [0x80, 0x20, 0x80, 0x00],
       Ev.busWrite 0x3c [0x80, 0xd9, 0x80, 0xf1],
       Ev.busWrite 0x3c [0x80, 0xdb, 0x80, 0x40],
       Ev.busWrite 0x3c [0x80, 0xa4, 0x80, 0xa6, 0x80, 0xaf],
       Ev.busWrite 0x3c
         [0x80, 0x21, 0x80, 0x00, 0x80, 0x7f, 0x80, 0x22, 0x80, 0x00, 0x80, 0x07],
       Ev.busWrite 0x3c (DC_DATA :: List.replicate 1024 0),
       Ev.busWrite 0x3c
         [0x80, 0x21, 0x80, 0x00, 0x80, 0x7f, 0x80, 0x22, 0x80, 0x00, 0x80, 0x07]] :=
  ⟨rfl, rfl⟩

/-- Claim C3: every nonempty command payload goes out in one transfer with
each command byte individually preceded by the 0x80 control byte, while
every pixel-data payload goes out as one contiguous block preceded by
exactly one 0x40 data control byte, never per-byte framed. -/
theorem c3_framing_discipline (bus : Bus) (st : Driver) (b : Nat) (bs arr : List Nat) :
    (command bus st (b :: bs)).evs =
      [Ev.busWrite st.devid ((b :: bs).flatMap fun c => [DC_CMD, c])] ∧
    (data bus st arr).evs = [Ev.busWrite st.devid (DC_DATA :: arr)] := by
  refine ⟨?_, rfl⟩
  simp [command, bitmap, interleaveCmd, interleaveCmd_eq_bind]

/-- Claim C4 (code bug): `reset` reads the never-assigned `rst` attribute
as its very first statement, so it raises an attribute-lookup error and
never reaches the cached-state resynchronization: after the call the
cached fields still hold their prior, non-default values. -/
theorem c4_reset_never_resyncs :
    reset sampleSt = ⟨sampleSt, [], some Err.attributeError⟩ ∧
    (reset sampleSt).st.power ≠ POWER_DOWN ∧
    (reset sampleSt).st.addressing ≠ ADDRESSING_HORIZ := by
  decide

/-- Claim C5 (code bug): `set_disp_offset` rejects offset 63 with the
invalid-argument failure and transmits nothing, although its own assertion
message documents the domain as 0 to 63; offset 62 is accepted and encoded
as 0xD3 followed by the offset under command framing. -/
theorem c5_disp_offset_63_rejected :
    (set_disp_offset goodBus sampleSt 63).err = some Err.invalidArgument ∧
    (set_disp_offset goodBus sampleSt 63).evs = [] ∧
    (set_disp_offset goodBus sampleSt 62).err = none ∧
    (set_disp_offset goodBus sampleSt 62).evs =
      [Ev.busWrite sampleSt.devid [DC_CMD, 0xd3, DC_CMD, 62]] := by
  decide

/-- Claim C6: for every freq in 0-15 and div in 1-16, storing the frequency
without sending and then setting the divider issues the single combined
register write 0xD5 followed by `(freq <<< 4) ||| (div - 1)` under command
framing, and both cached fields carry the stored values. -/
theorem c6_oscfreq_clockdiv_combined (bus : Bus) (st : Driver) (freq div : Nat)
    (hf : freq < 16) (hd1 : 1 ≤ div) (hd2 : div ≤ 16) :
    ((set_osc_freq bus st freq false).next fun st =>
        set_clock_div bus st div true).evs =
      [Ev.busWrite st.devid [DC_CMD, 0xd5, DC_CMD, (freq <<< 4) ||| (div - 1)]] ∧
    ((set_osc_freq bus st freq false).next fun st =>
        set_clock_div bus st div true).st.osc_freq = freq ∧
    ((set_osc_freq bus st freq false).next fun st =>
        set_clock_div bus st div true).st.clock_div = div := by
  have h2 : 0 < div ∧ div ≤ 16 := ⟨hd1, hd2⟩
  simp [set_osc_freq, set_clock_div, set_oscfreqclockdiv, MResult.next,
    command, bitmap, interleaveCmd, hf, h2]

/-- Witness for C6 at freq 8, div 1 (the construction defaults). -/
theorem c6_oscfreq_clockdiv_combined_witness :
    ((set_osc_freq goodBus sampleSt 8 false).next fun st =>
        set_clock_div goodBus st 1 true).evs =
      [Ev.busWrite sampleSt.devid [DC_CMD, 0xd5, DC_CMD, (8 <<< 4) ||| (1 - 1)]] ∧
    ((set_osc_freq goodBus sampleSt 8 false).next fun st =>
        set_clock_div goodBus st 1 true).st.osc_freq = 8 ∧
    ((set_osc_freq goodBus sampleSt 8 false).next fun st =>
        set_clock_div goodBus st 1 true).st.clock_div = 1 :=
  c6_oscfreq_clockdiv_combined goodBus sampleSt 8 1 (by decide) (by decide) (by decide)

/-- Claim C7: for level 0-7 the Vcomh setter issues exactly 0xDB followed by
`level <<< 4` under command framing (and succeeds on a good bus); for level
at least 8 it fails with the invalid-argument condition and issues zero bus
transfers. -/
theorem c7_vcomh_deselect_level (bus : Bus) (st : Driver) (level : Nat) :
    (level < 8 →
      (set_vcomh_deselect_level bus st level).evs =
        [Ev.busWrite st.devid [DC_CMD, 0xdb, DC_CMD, level <<< 4]] ∧
      (set_vcomh_deselect_level goodBus st level).err = none) ∧
    (8 ≤ level →
      (set_vcomh_deselect_level bus st level).err = some Err.invalidArgument ∧
      (set_vcomh_deselect_level bus st level).evs = []) := by
  constructor
  · intro h
    simp [set_vcomh_deselect_level, command, bitmap, interleaveCmd, h, goodBus]
  · intro h
    simp [set_vcomh_deselect_level, Nat.not_lt.2 h]

/-- Witness for C7 at levels 4 (in range) and 9 (out of range). -/
theorem c7_vcomh_deselect_level_witness :
    ((set_vcomh_deselect_level goodBus sampleSt 4).evs =
        [Ev.busWrite sampleSt.devid [DC_CMD, 0xdb, DC_CMD, 4 <<< 4]] ∧
      (set_vcomh_deselect_level goodBus sampleSt 4).err = none) ∧
    ((set_vcomh_deselect_level goodBus sampleSt 9).err = some Err.invalidArgument ∧
      (set_vcomh_deselect_level goodBus sampleSt 9).evs = []) :=
  ⟨(c7_vcomh_deselect_level goodBus sampleSt 4).1 (by decide),
   (c7_vcomh_deselect_level goodBus sampleSt 9).2 (by decide)⟩

set_option maxRecDepth 8000 in
/-- Claim C8: on a 128×64 driver, `clear` issues exactly three transfers:
position-to-(0,0), a data transfer of exactly `height*width/8 = 1024`
zero-valued bytes, and a final position-to-(0,0); nothing raises. -/
theorem c8_clear_zero_fill (st : Driver) (hw : st.width = 128) (hh : st.height = 64) :
    (clear goodBus st).err = none ∧
    st.height * st.width / 8 = 1024 ∧
    (clear goodBus st).evs =
      [Ev.busWrite st.devid
         [DC_CMD, 0x21, DC_CMD, 0, DC_CMD, 0x7f, DC_CMD, 0x22, DC_CMD, 0, DC_CMD, 0x07],
       Ev.busWrite st.devid (DC_DATA :: List.replicate 1024 0),
       Ev.busWrite st.devid
         [DC_CMD, 0x21, DC_CMD, 0, DC_CMD, 0x7f, DC_CMD, 0x22, DC_CMD, 0, DC_CMD, 0x07]] := by
  simp [clear, position, data, command, bitmap, interleaveCmd, MResult.next,
    goodBus, hw, hh]

/-- Witness for C8 at the sample 128×64 state. -/
theorem c8_clear_zero_fill_witness :
    (clear goodBus sampleSt).err = none ∧
    sampleSt.height * sampleSt.width / 8 = 1024 ∧
    (clear goodBus sampleSt).evs =
      [Ev.busWrite sampleSt.devid
         [DC_CMD, 0x21, DC_CMD, 0, DC_CMD, 0x7f, DC_CMD, 0x22, DC_CMD, 0, DC_CMD, 0x07],
       Ev.busWrite sampleSt.devid (DC_DATA :: List.replicate 1024 0),
       Ev.busWrite sampleSt.devid
         [DC_CMD, 0x21, DC_CMD, 0, DC_CMD, 0x7f, DC_CMD, 0x22, DC_CMD, 0, DC_CMD, 0x07]] :=
  c8_clear_zero_fill sampleSt rfl rfl

/-- Claim C9: whenever x is at least `width` or y is at least `height/8`,
`position` fails with the invalid-argument condition and issues zero bus
transfers. -/
theorem c9_position_out_of_range (bus : Bus) (st : Driver) (x y : Nat)
    (h : st.width ≤ x ∨ st.height / 8 ≤ y) :
    (position bus st x y).err = some Err.invalidArgument ∧
    (position bus st x y).evs = [] := by
  rcases h with h | h
  · simp [position, Nat.not_lt.2 h]
  · by_cases hx : x < st.width
    · simp [position, hx, Nat.not_lt.2 h]
    · simp [position, hx]

/-- Witness for C9 at x = 128 (out of range) on the sample 128×64 state. -/
theorem c9_position_out_of_range_witness :
    (position goodBus sampleSt 128 0).err = some Err.invalidArgument ∧
    (position goodBus sampleSt 128 0).evs = [] :=
  c9_position_out_of_range goodBus sampleSt 128 0 (Or.inl (by decide))

/-- Claim C10: the constructor of the current variant leaves `rst`
unassigned; on any state with `rst` unassigned, `reset` in either variant
raises the attribute-lookup error with no pin events and no state change
(so before the pulse and before the resynchronization); in the legacy
variant `power_on` therefore fails the same way, and so does construction,
whose first method call after the field assignments is `power_on`,
whatever the rest of the constructor body would do. -/
theorem c10_reset_attribute_error :
    (init goodBus (some ()) 0x3c).st.rst = none ∧
    (∀ st : Driver, st.rst = none →
      reset st = ⟨st, [], some Err.attributeError⟩) ∧
    (∀ st : LDriver, st.rst = none →
      lreset st = ⟨st, [], some Err.attributeError⟩) ∧
    (∀ st : LDriver, st.rst = none →
      (lpower_on st).err = some Err.attributeError ∧ (lpower_on st).st = st) ∧
    (∀ (pwr : Option Unit) (devid : Nat) (rest : LDriver → LRes),
      ((lpower_on (lInitState pwr devid)).next rest).err = some Err.attributeError) := by
  refine ⟨rfl, ?_, ?_, ?_, ?_⟩
  · intro st h
    simp [reset, h]
  · intro st h
    simp [lreset, h]
  · intro st h
    cases hp : st.pwr <;> simp [lpower_on, LRes.next, lreset, h, hp]
  · intro pwr devid rest
    cases pwr <;> simp [lpower_on, lInitState, LRes.next, lreset]

/-- Witness for C10 at the legacy construction state and the sample state. -/
theorem c10_reset_attribute_error_witness :
    reset sampleSt = ⟨sampleSt, [], some Err.attributeError⟩ ∧
    lreset (lInitState (some ()) 0x3c) =
      ⟨lInitState (some ()) 0x3c, [], some Err.attributeError⟩ ∧
    ((lpower_on (lInitState (some ()) 0x3c)).err = some Err.attributeError ∧
      (lpower_on (lInitState (some ()) 0x3c)).st = lInitState (some ()) 0x3c) ∧
    ((lpower_on (lInitState (some ()) 0x3c)).next (fun st => lreset st)).err =
      some Err.attributeError :=
  ⟨c10_reset_attribute_error.2.1 sampleSt rfl,
   c10_reset_attribute_error.2.2.1 (lInitState (some ()) 0x3c) rfl,
   c10_reset_attribute_error.2.2.2.1 (lInitState (some ()) 0x3c) rfl,
   c10_reset_attribute_error.2.2.2.2 (some ()) 0x3c (fun st => lreset st)⟩

end USSD1306
